import Mathlib

/- Shallow embedding of the cpf-cnpj-validator library.

   JavaScript strings are modelled as lists of characters and JavaScript
   number arrays as lists of natural numbers.  Each definition mirrors one
   function of the TypeScript sources: src/cpf/index.ts (namespace Cpf),
   src/cnpj/numeric.ts (namespace CnpjNumeric), src/cnpj/alfanumeric.ts
   (namespace CnpjAlfanumeric) and src/cnpj/index.ts (namespace Cnpj).
   The random base payload drawn by each generator is made an explicit
   argument, so a generated document is the image of an arbitrary admissible
   draw. -/

/-- Modelled from the spec: the file src/constants.ts is not among the provided
sources.  Per the spec, a CPF is 11 characters long. -/
def CPF_LENGTH : Nat := 11

/-- Modelled from the spec: the file src/constants.ts is not among the provided
sources.  Per the spec, a CNPJ is 14 characters long. -/
def CNPJ_LENGTH : Nat := 14

/-- Modelled from the spec: the file src/constants.ts is not among the provided
sources.  Per the spec, the letters of an alphanumeric CNPJ base are the
uppercase letters A-Z. -/
def ALPHABET : List Char := "ABCDEFGHIJKLMNOPQRSTUVWXYZ".data

/-- Numeric value of a decimal digit character, JavaScript `Number(c)`.  The
sources only apply it to digit characters (the inputs are cleaned first). -/
def digitVal (c : Char) : Nat := c.toNat - 48

/-- The test of the regular expression `^(\d)\1+$`: a digit followed by one or
more copies of that same character, spanning the whole string. -/
def repSeq : List Char → Bool
  | [] => false
  | c :: rest => c.isDigit && !rest.isEmpty && rest.all (fun d => d == c)

/-- JavaScript `array.join("")` on an array of numbers: each number is printed
in decimal and the pieces are concatenated. -/
def joinNums (l : List Nat) : List Char :=
  (l.map (fun n => Nat.toDigits 10 n)).flatten

/-- Whitespace as skipped by JavaScript `parseInt` (space, tab, line feed,
carriage return, vertical tab, form feed). -/
def jsWhitespace (c : Char) : Bool :=
  c == ' ' || c == '\t' || c == '\n' || c == '\r' || c.toNat == 11 || c.toNat == 12

/-- Value of a string of decimal digit characters, most significant first. -/
def digitsToNat (s : List Char) : Nat :=
  s.foldl (fun acc c => acc * 10 + digitVal c) 0

/-- Hexadecimal digit as read by `parseInt` with radix 16: 0-9, a-f, A-F. -/
def isHexDigit (c : Char) : Bool :=
  (48 ≤ c.toNat && c.toNat ≤ 57) || (97 ≤ c.toNat && c.toNat ≤ 102)
    || (65 ≤ c.toNat && c.toNat ≤ 70)

/-- Value of one hexadecimal digit character. -/
def hexDigitVal (c : Char) : Nat :=
  if c.toNat ≤ 57 then c.toNat - 48
  else if c.toNat ≤ 70 then c.toNat - 55
  else c.toNat - 87

/-- Value of a string of hexadecimal digit characters, most significant
first. -/
def hexToNat (s : List Char) : Nat :=
  s.foldl (fun acc c => acc * 16 + hexDigitVal c) 0

/-- JavaScript `parseInt(s)` with the radix argument omitted, per ECMA-262:
skip leading whitespace, read an optional sign, and if the remainder starts
with the prefix "0x" or "0X" strip it and read the longest run of hexadecimal
digits, otherwise read the longest run of decimal digits; the result is NaN
(modelled as `none`) when the chosen run is empty — in particular a string
whose significand is exactly "0x" or "0X" parses to NaN. -/
def jsParseInt (s : List Char) : Option Int :=
  let t := s.dropWhile jsWhitespace
  let neg : Bool := t.headD ' ' == '-'
  let u := if t.headD ' ' == '-' || t.headD ' ' == '+' then t.tail else t
  if u.headD ' ' == '0' && (u.tail.headD ' ' == 'x' || u.tail.headD ' ' == 'X') then
    let ds := (u.drop 2).takeWhile isHexDigit
    if ds.isEmpty then none
    else if neg then some (-(hexToNat ds : Int)) else some (hexToNat ds)
  else
    let ds := u.takeWhile Char.isDigit
    if ds.isEmpty then none
    else if neg then some (-(digitsToNat ds : Int)) else some (digitsToNat ds)

namespace Cpf

/-- cleanCPF from src/cpf/index.ts: `cpf.replace(/\D/g, "")` removes every
non-digit character. -/
def cleanCPF (cpf : List Char) : List Char := cpf.filter Char.isDigit

/-- isValidFormat from src/cpf/index.ts: wrong length fails, then repeated
single-digit sequences and the literal "12345678909" are rejected. -/
def isValidFormat (cpf : List Char) : Bool :=
  if cpf.length ≠ CPF_LENGTH then false
  else !repSeq cpf && !(cpf == "12345678909".data)

/-- The reduce inside calculateCheckDigit of src/cpf/index.ts: the element at
index `i` is multiplied by `w - i`, that is, the head by the current weight,
which then decreases by one per position. -/
def weightedSum : List Nat → Nat → Nat
  | [], _ => 0
  | n :: rest, w => n * w + weightedSum rest (w - 1)

/-- calculateCheckDigit from src/cpf/index.ts: the weight starts at
`length + 1` and the remainder rule of modulo 11 produces the digit. -/
def calculateCheckDigit (numbers : List Nat) : Nat :=
  let weight := numbers.length + 1
  let sum := weightedSum numbers weight
  let remainder := sum % 11
  if remainder < 2 then 0 else 11 - remainder

/-- isValid from src/cpf/index.ts. -/
def isValid (cpf : List Char) : Bool :=
  let cleanedCPF := cleanCPF cpf
  if isValidFormat cleanedCPF then
    let digits := cleanedCPF.map digitVal
    let baseCPF := digits.take 9
    let firstDigit := calculateCheckDigit baseCPF
    let secondDigit := calculateCheckDigit (baseCPF ++ [firstDigit])
    (digits.get? 9 == some firstDigit) && (digits.get? 10 == some secondDigit)
  else false

/-- generate from src/cpf/index.ts, as a function of the 9 random base digits
drawn by generateBaseCPF (each an independent uniform draw below 10); the
`formatted` option merely applies `format` to this result afterwards. -/
def generate (baseCPF : List Nat) : List Char :=
  let firstDigit := calculateCheckDigit baseCPF
  let secondDigit := calculateCheckDigit (baseCPF ++ [firstDigit])
  joinNums (baseCPF ++ [firstDigit, secondDigit])

/-- One attempted match of `(\d{3})(\d{3})(\d{3})(\d{2})` at the start of the
string: eleven digit characters regrouped as XXX.XXX.XXX-XX, followed by the
tail that the match did not consume. -/
def formatMatchAt (s : List Char) : Option (List Char) :=
  if 11 ≤ s.length && (s.take 11).all Char.isDigit then
    some (s.take 3 ++ ['.'] ++ (s.drop 3).take 3 ++ ['.'] ++ (s.drop 6).take 3
      ++ ['-'] ++ (s.drop 9).take 2 ++ s.drop 11)
  else none

/-- format from src/cpf/index.ts.  `String.replace` with a non-global regular
expression rewrites the leftmost match and keeps everything else. -/
def format : List Char → List Char
  | [] => []
  | c :: rest =>
    match formatMatchAt (c :: rest) with
    | some r => r
    | none => c :: format rest

end Cpf

namespace CnpjNumeric

/-- The loop of calculateCheckDigit in src/cnpj/numeric.ts walks the array
from its last index to its first with a weight that starts at 2, goes up to 9
and resets to 2; this is that loop on the reversed list. -/
def weightedSumRev : List Nat → Nat → Nat
  | [], _ => 0
  | n :: rest, w => n * w + weightedSumRev rest (if w = 9 then 2 else w + 1)

/-- calculateCheckDigit from src/cnpj/numeric.ts. -/
def calculateCheckDigit (digits : List Nat) : Nat :=
  let sum := weightedSumRev digits.reverse 2
  let rest := sum % 11
  if rest < 2 then 0 else 11 - rest

/-- calculateCheckDigits from src/cnpj/numeric.ts: the second digit is
computed over the base extended by the first. -/
def calculateCheckDigits (baseCNPJ : List Nat) : Nat × Nat :=
  let firstDigit := calculateCheckDigit baseCNPJ
  let secondDigit := calculateCheckDigit (baseCNPJ ++ [firstDigit])
  (firstDigit, secondDigit)

/-- generateNumeric from src/cnpj/numeric.ts, as a function of the 12 random
base digits drawn by generateBaseNumeric. -/
def generateNumeric (baseCNPJ : List Nat) : List Char :=
  let p := calculateCheckDigits baseCNPJ
  joinNums (baseCNPJ ++ [p.1, p.2])

/-- cleanCNPJ from src/cnpj/numeric.ts: in numeric mode every non-digit is
removed, otherwise only the punctuation characters dot, slash and dash. -/
def cleanCNPJ (cnpj : List Char) (numeric : Bool) : List Char :=
  if numeric then cnpj.filter Char.isDigit
  else cnpj.filter (fun c => !(c == '.' || c == '/' || c == '-'))

/-- isValidFormat from src/cnpj/numeric.ts. -/
def isValidFormat (cnpj : List Char) : Bool :=
  cnpj.length == CNPJ_LENGTH && !repSeq cnpj

/-- validateNumeric from src/cnpj/numeric.ts. -/
def validateNumeric (cnpj : List Char) : Bool :=
  let cleanedCNPJ := cleanCNPJ cnpj true
  if isValidFormat cleanedCNPJ then
    let digits := cleanedCNPJ.map digitVal
    let baseCNPJ := digits.take 12
    let p := calculateCheckDigits baseCNPJ
    (digits.get? 12 == some p.1) && (digits.get? 13 == some p.2)
  else false

end CnpjNumeric

/-- A JavaScript array element of type number-or-string, as used by the
alphanumeric CNPJ engine. -/
inductive JsSym where
  | num (n : Nat)
  | letter (c : Char)
deriving DecidableEq

namespace CnpjAlfanumeric

/-- convertLetterToNumber from src/cnpj/alfanumeric.ts: lookup in the fixed
letter table, first matching key wins, with `letterMap[digit] || 0` falling
back to 0 for a character that is not a key of the table. -/
def convertLetterToNumber (digit : Char) : Nat :=
  if digit = 'A' then 17
  else if digit = 'B' then 18
  else if digit = 'C' then 19
  else if digit = 'D' then 20
  else if digit = 'E' then 21
  else if digit = 'F' then 22
  else if digit = 'G' then 23
  else if digit = 'H' then 24
  else if digit = 'I' then 25
  else if digit = 'J' then 26
  else if digit = 'K' then 27
  else if digit = 'L' then 28
  else if digit = 'M' then 29
  else if digit = 'N' then 30
  else if digit = 'O' then 31
  else if digit = 'P' then 32
  else if digit = 'Q' then 33
  else if digit = 'R' then 34
  else if digit = 'S' then 35
  else if digit = 'T' then 36
  else if digit = 'U' then 37
  else if digit = 'V' then 38
  else if digit = 'W' then 39
  else if digit = 'X' then 40
  else if digit = 'Y' then 41
  else if digit = 'Z' then 42
  else 0

/-- The per-element numeric value inside calculateCheckDigit of
src/cnpj/alfanumeric.ts: a string element goes through convertLetterToNumber
and a number element is used as is. -/
def symVal : JsSym → Nat
  | .num n => n
  | .letter c => convertLetterToNumber c

/-- The loop of calculateCheckDigit in src/cnpj/alfanumeric.ts on the
reversed list, with the same cycling weight as the numeric engine. -/
def weightedSumRev : List JsSym → Nat → Nat
  | [], _ => 0
  | d :: rest, w => symVal d * w + weightedSumRev rest (if w = 9 then 2 else w + 1)

/-- calculateCheckDigit from src/cnpj/alfanumeric.ts. -/
def calculateCheckDigit (digits : List JsSym) : Nat :=
  let sum := weightedSumRev digits.reverse 2
  let rest := sum % 11
  if rest < 2 then 0 else 11 - rest

/-- calculateCheckDigits from src/cnpj/alfanumeric.ts: the first digit is
appended to the base (as a number) before the second is computed. -/
def calculateCheckDigits (baseCNPJ : List JsSym) : Nat × Nat :=
  let firstDigit := calculateCheckDigit baseCNPJ
  let secondDigit := calculateCheckDigit (baseCNPJ ++ [JsSym.num firstDigit])
  (firstDigit, secondDigit)

/-- convertCnpj from src/cnpj/alfanumeric.ts.  In JavaScript,
`isNaN(Number(item))` is false for a digit character, where `+item` is its
value, and for a whitespace character, where `+item` is 0 and the letter table
would also give 0; for every other character the letter table is consulted.
So each character maps to its digit value if it is a digit and to its
letter-table value otherwise. -/
def convertCnpj (cnpj : List Char) : List Nat :=
  cnpj.map (fun item => if item.isDigit then digitVal item else convertLetterToNumber item)

/-- JavaScript `array.join("")` on a number-or-string array. -/
def joinSyms (l : List JsSym) : List Char :=
  (l.map (fun s => match s with | .num n => Nat.toDigits 10 n | .letter c => [c])).flatten

/-- generateAlphanumeric from src/cnpj/alfanumeric.ts, as a function of the
12 random base symbols drawn by generateBaseAlphanumeric (each position an
independent digit below 10 or a letter of ALPHABET). -/
def generateAlphanumeric (baseCNPJ : List JsSym) : List Char :=
  let p := calculateCheckDigits baseCNPJ
  joinSyms (baseCNPJ ++ [JsSym.num p.1, JsSym.num p.2])

/-- validateAlphanumeric from src/cnpj/alfanumeric.ts: the check digits are
recomputed from the first 12 characters (of a 14-character input) and the
comparison is between `parseInt` of the last two characters of the input and
`parseInt` of the template string made of the two computed digits; a NaN on
either side makes the strict equality false. -/
def validateAlphanumeric (cnpj : List Char) : Bool :=
  let digits := convertCnpj (if cnpj.length == CNPJ_LENGTH then cnpj.take 12 else cnpj)
  let p := calculateCheckDigits (digits.map JsSym.num)
  let orig := jsParseInt (cnpj.drop (cnpj.length - 2))
  let calcd := jsParseInt (Nat.toDigits 10 p.1 ++ Nat.toDigits 10 p.2)
  match orig, calcd with
  | some a, some b => a == b
  | _, _ => false

end CnpjAlfanumeric

/-- The character class kept by the CNPJ cleaning step, which removes every
match of `[^a-zA-Z0-9]`. -/
def isAlnumChar (c : Char) : Bool :=
  (97 ≤ c.toNat && c.toNat ≤ 122) || (65 ≤ c.toNat && c.toNat ≤ 90)
    || (48 ≤ c.toNat && c.toNat ≤ 57)

namespace Cnpj

/-- isNumeric from src/cnpj/index.ts: the regular expression `^[0-9]+$`. -/
def isNumeric (value : List Char) : Bool :=
  !value.isEmpty && value.all Char.isDigit

/-- isAlfanumeric from src/cnpj/index.ts: the regular expression
`^[a-zA-Z0-9]+$`. -/
def isAlfanumeric (value : List Char) : Bool :=
  !value.isEmpty && value.all isAlnumChar

/-- isValid from src/cnpj/index.ts: clean to letters and digits, require
length 14, then route all-digit strings to the numeric validator and the
rest to the alphanumeric validator. -/
def isValid (cnpj : List Char) : Bool :=
  let cleanedCNPJ := cnpj.filter isAlnumChar
  if cleanedCNPJ.length == CNPJ_LENGTH then
    if isNumeric cleanedCNPJ then CnpjNumeric.validateNumeric cleanedCNPJ
    else if isAlfanumeric cleanedCNPJ then CnpjAlfanumeric.validateAlphanumeric cleanedCNPJ
    else false
  else false

/-- One attempted match of `(.{2})(.{3})(.{3})(.{4})(.{2})` at the start of
the string: fourteen characters (the regex dot does not match line
terminators) regrouped as XX.XXX.XXX/XXXX-XX, followed by the unconsumed
tail. -/
def formatMatchAt (s : List Char) : Option (List Char) :=
  if 14 ≤ s.length && (s.take 14).all (fun c =>
      !(c == '\n' || c == '\r' || c.toNat == 8232 || c.toNat == 8233)) then
    some (s.take 2 ++ ['.'] ++ (s.drop 2).take 3 ++ ['.'] ++ (s.drop 5).take 3
      ++ ['/'] ++ (s.drop 8).take 4 ++ ['-'] ++ (s.drop 12).take 2 ++ s.drop 14)
  else none

/-- format from src/cnpj/index.ts: `String.replace` with a non-global regular
expression rewrites the leftmost match and keeps everything else. -/
def format : List Char → List Char
  | [] => []
  | c :: rest =>
    match formatMatchAt (c :: rest) with
    | some r => r
    | none => c :: format rest

end Cnpj

/-- The admissible random draws of generateBaseCPF and generateBaseNumeric are
digits below 10; those of generateBaseAlphanumeric are digits below 10 or
letters of ALPHABET (character codes 65 through 90). -/
def symOk : JsSym → Bool
  | .num n => n < 10
  | .letter c => 65 ≤ c.toNat && c.toNat ≤ 90

/-- The single character contributed to the joined document string by one base
symbol: a digit below 10 prints as its digit character, a letter as itself. -/
def symChar : JsSym → Char
  | .num n => Nat.digitChar n
  | .letter c => c

/-- The pair of check digits that validateAlphanumeric recomputes for a
14-character input: convertCnpj of the first 12 characters, passed (as
numbers) to calculateCheckDigits. -/
def alfaCheckPair (s : List Char) : Nat × Nat :=
  CnpjAlfanumeric.calculateCheckDigits
    ((CnpjAlfanumeric.convertCnpj (s.take 12)).map JsSym.num)

/-- Formalisation of the check-digit formula in the spec's words for the CPF
engine: position i from the left is weighted by length + 1 - i, the weighted
sum is reduced modulo 11, and a remainder below 2 gives 0, any other
remainder r gives 11 - r. -/
def spec_cpfCheckDigit (values : List Nat) : Nat :=
  let n := values.length
  let s := ∑ i ∈ Finset.range n, values.getD i 0 * (n + 1 - i)
  if s % 11 < 2 then 0 else 11 - s % 11

/-- Formalisation of the check-digit formula in the spec's words for both CNPJ
engines: the element at distance k from the right end is weighted by
2 + k mod 8 (weights 2..9 cycling from the rightmost element leftward), the
weighted sum is reduced modulo 11, and a remainder below 2 gives 0, any other
remainder r gives 11 - r. -/
def spec_cnpjCheckDigit (values : List Nat) : Nat :=
  let s := ∑ k ∈ Finset.range values.length, values.reverse.getD k 0 * (2 + k % 8)
  if s % 11 < 2 then 0 else 11 - s % 11


section CharFacts

lemma char_eq_iff (c d : Char) : c = d ↔ c.toNat = d.toNat := by
  constructor
  · intro h; rw [h]
  · intro h; rw [← Char.ofNat_toNat c, ← Char.ofNat_toNat d, h]

lemma char_beq_iff (c d : Char) : (c == d) = true ↔ c.toNat = d.toNat := by
  rw [beq_iff_eq]; exact char_eq_iff c d

lemma char_beq_false (c d : Char) (h : c.toNat ≠ d.toNat) : (c == d) = false := by
  rw [Bool.eq_false_iff]
  intro h2
  exact h ((char_beq_iff c d).mp h2)

lemma isDigit_iff (c : Char) : c.isDigit = true ↔ 48 ≤ c.toNat ∧ c.toNat ≤ 57 := by
  simp only [Char.isDigit, Bool.and_eq_true, decide_eq_true_eq]
  exact Iff.rfl

lemma isAlnumChar_iff (c : Char) :
    isAlnumChar c = true ↔
      (97 ≤ c.toNat ∧ c.toNat ≤ 122) ∨ (65 ≤ c.toNat ∧ c.toNat ≤ 90)
        ∨ (48 ≤ c.toNat ∧ c.toNat ≤ 57) := by
  simp only [isAlnumChar, Bool.or_eq_true, Bool.and_eq_true, decide_eq_true_eq]
  tauto

lemma isAlnumChar_of_isDigit (c : Char) (h : c.isDigit = true) : isAlnumChar c = true := by
  rw [isAlnumChar_iff]
  exact Or.inr (Or.inr ((isDigit_iff c).mp h))

lemma digitVal_inj (c d : Char) (hc : c.isDigit = true) (hd : d.isDigit = true)
    (h : digitVal c = digitVal d) : c = d := by
  rw [isDigit_iff] at hc hd
  rw [char_eq_iff]
  unfold digitVal at h
  omega

end CharFacts

section DigitFacts

lemma toDigits_eq_digitChar : ∀ n, n < 10 → Nat.toDigits 10 n = [Nat.digitChar n] := by decide

lemma digitChar_isDigit : ∀ n, n < 10 → (Nat.digitChar n).isDigit = true := by decide

lemma digitVal_digitChar : ∀ n, n < 10 → digitVal (Nat.digitChar n) = n := by decide

lemma joinNums_cons (n : Nat) (t : List Nat) :
    joinNums (n :: t) = Nat.toDigits 10 n ++ joinNums t := by
  simp [joinNums]

lemma joinNums_eq (l : List Nat) (h : ∀ x ∈ l, x < 10) :
    joinNums l = l.map Nat.digitChar := by
  induction l with
  | nil => rfl
  | cons n t ih =>
    rw [joinNums_cons, toDigits_eq_digitChar n (h n (by simp)), List.map_cons,
      ih (fun x hx => h x (by simp [hx]))]
    rfl

lemma map_digitVal_digitChar (l : List Nat) (h : ∀ x ∈ l, x < 10) :
    (l.map Nat.digitChar).map digitVal = l := by
  induction l with
  | nil => rfl
  | cons n t ih =>
    simp only [List.map_cons]
    rw [digitVal_digitChar n (h n (by simp)), ih (fun x hx => h x (by simp [hx]))]

lemma all_isDigit_map_digitChar (l : List Nat) (h : ∀ x ∈ l, x < 10) :
    ∀ c ∈ l.map Nat.digitChar, c.isDigit = true := by
  intro c hc
  rw [List.mem_map] at hc
  obtain ⟨n, hn, rfl⟩ := hc
  exact digitChar_isDigit n (h n hn)

end DigitFacts

section CheckDigitBounds

lemma cpf_checkDigit_lt (numbers : List Nat) : Cpf.calculateCheckDigit numbers < 10 := by
  simp only [Cpf.calculateCheckDigit]
  have h11 : Cpf.weightedSum numbers (numbers.length + 1) % 11 < 11 :=
    Nat.mod_lt _ (by omega)
  split_ifs <;> omega

lemma cnpjN_checkDigit_lt (digits : List Nat) : CnpjNumeric.calculateCheckDigit digits < 10 := by
  simp only [CnpjNumeric.calculateCheckDigit]
  have h11 : CnpjNumeric.weightedSumRev digits.reverse 2 % 11 < 11 :=
    Nat.mod_lt _ (by omega)
  split_ifs <;> omega

lemma cnpjA_checkDigit_lt (digits : List JsSym) :
    CnpjAlfanumeric.calculateCheckDigit digits < 10 := by
  simp only [CnpjAlfanumeric.calculateCheckDigit]
  have h11 : CnpjAlfanumeric.weightedSumRev digits.reverse 2 % 11 < 11 :=
    Nat.mod_lt _ (by omega)
  split_ifs <;> omega

end CheckDigitBounds

section LetterTable

lemma convertLetterToNumber_eq (c : Char) :
    CnpjAlfanumeric.convertLetterToNumber c =
      if 65 ≤ c.toNat ∧ c.toNat ≤ 90 then c.toNat - 48 else 0 := by
  by_cases hA : c = 'A'
  · subst hA; decide
  by_cases hB : c = 'B'
  · subst hB; decide
  by_cases hC : c = 'C'
  · subst hC; decide
  by_cases hD : c = 'D'
  · subst hD; decide
  by_cases hE : c = 'E'
  · subst hE; decide
  by_cases hF : c = 'F'
  · subst hF; decide
  by_cases hG : c = 'G'
  · subst hG; decide
  by_cases hH : c = 'H'
  · subst hH; decide
  by_cases hI : c = 'I'
  · subst hI; decide
  by_cases hJ : c = 'J'
  · subst hJ; decide
  by_cases hK : c = 'K'
  · subst hK; decide
  by_cases hL : c = 'L'
  · subst hL; decide
  by_cases hM : c = 'M'
  · subst hM; decide
  by_cases hN : c = 'N'
  · subst hN; decide
  by_cases hO : c = 'O'
  · subst hO; decide
  by_cases hP : c = 'P'
  · subst hP; decide
  by_cases hQ : c = 'Q'
  · subst hQ; decide
  by_cases hR : c = 'R'
  · subst hR; decide
  by_cases hS : c = 'S'
  · subst hS; decide
  by_cases hT : c = 'T'
  · subst hT; decide
  by_cases hU : c = 'U'
  · subst hU; decide
  by_cases hV : c = 'V'
  · subst hV; decide
  by_cases hW : c = 'W'
  · subst hW; decide
  by_cases hX : c = 'X'
  · subst hX; decide
  by_cases hY : c = 'Y'
  · subst hY; decide
  by_cases hZ : c = 'Z'
  · subst hZ; decide
  have eA : c.toNat ≠ 65 := fun h => hA (by rw [← Char.ofNat_toNat c, h])
  have eB : c.toNat ≠ 66 := fun h => hB (by rw [← Char.ofNat_toNat c, h])
  have eC : c.toNat ≠ 67 := fun h => hC (by rw [← Char.ofNat_toNat c, h])
  have eD : c.toNat ≠ 68 := fun h => hD (by rw [← Char.ofNat_toNat c, h])
  have eE : c.toNat ≠ 69 := fun h => hE (by rw [← Char.ofNat_toNat c, h])
  have eF : c.toNat ≠ 70 := fun h => hF (by rw [← Char.ofNat_toNat c, h])
  have eG : c.toNat ≠ 71 := fun h => hG (by rw [← Char.ofNat_toNat c, h])
  have eH : c.toNat ≠ 72 := fun h => hH (by rw [← Char.ofNat_toNat c, h])
  have eI : c.toNat ≠ 73 := fun h => hI (by rw [← Char.ofNat_toNat c, h])
  have eJ : c.toNat ≠ 74 := fun h => hJ (by rw [← Char.ofNat_toNat c, h])
  have eK : c.toNat ≠ 75 := fun h => hK (by rw [← Char.ofNat_toNat c, h])
  have eL : c.toNat ≠ 76 := fun h => hL (by rw [← Char.ofNat_toNat c, h])
  have eM : c.toNat ≠ 77 := fun h => hM (by rw [← Char.ofNat_toNat c, h])
  have eN : c.toNat ≠ 78 := fun h => hN (by rw [← Char.ofNat_toNat c, h])
  have eO : c.toNat ≠ 79 := fun h => hO (by rw [← Char.ofNat_toNat c, h])
  have eP : c.toNat ≠ 80 := fun h => hP (by rw [← Char.ofNat_toNat c, h])
  have eQ : c.toNat ≠ 81 := fun h => hQ (by rw [← Char.ofNat_toNat c, h])
  have eR : c.toNat ≠ 82 := fun h => hR (by rw [← Char.ofNat_toNat c, h])
  have eS : c.toNat ≠ 83 := fun h => hS (by rw [← Char.ofNat_toNat c, h])
  have eT : c.toNat ≠ 84 := fun h => hT (by rw [← Char.ofNat_toNat c, h])
  have eU : c.toNat ≠ 85 := fun h => hU (by rw [← Char.ofNat_toNat c, h])
  have eV : c.toNat ≠ 86 := fun h => hV (by rw [← Char.ofNat_toNat c, h])
  have eW : c.toNat ≠ 87 := fun h => hW (by rw [← Char.ofNat_toNat c, h])
  have eX : c.toNat ≠ 88 := fun h => hX (by rw [← Char.ofNat_toNat c, h])
  have eY : c.toNat ≠ 89 := fun h => hY (by rw [← Char.ofNat_toNat c, h])
  have eZ : c.toNat ≠ 90 := fun h => hZ (by rw [← Char.ofNat_toNat c, h])
  rw [if_neg (by omega)]
  simp only [CnpjAlfanumeric.convertLetterToNumber]
  rw [if_neg hA, if_neg hB, if_neg hC, if_neg hD, if_neg hE, if_neg hF, if_neg hG, if_neg hH, if_neg hI, if_neg hJ, if_neg hK, if_neg hL, if_neg hM, if_neg hN, if_neg hO, if_neg hP, if_neg hQ, if_neg hR, if_neg hS, if_neg hT, if_neg hU, if_neg hV, if_neg hW, if_neg hX, if_neg hY, if_neg hZ]

lemma convertLetterToNumber_upper (c : Char) (h1 : 65 ≤ c.toNat) (h2 : c.toNat ≤ 90) :
    CnpjAlfanumeric.convertLetterToNumber c = c.toNat - 48 := by
  rw [convertLetterToNumber_eq, if_pos ⟨h1, h2⟩]

lemma convertLetterToNumber_other (c : Char) (h : ¬(65 ≤ c.toNat ∧ c.toNat ≤ 90)) :
    CnpjAlfanumeric.convertLetterToNumber c = 0 := by
  rw [convertLetterToNumber_eq, if_neg h]

end LetterTable

section ParseFacts

lemma jsWhitespace_eq_false (c : Char) (h : 48 ≤ c.toNat) : jsWhitespace c = false := by
  rw [Bool.eq_false_iff]
  intro hw
  simp only [jsWhitespace, Bool.or_eq_true, beq_iff_eq] at hw
  rcases hw with ((((h1 | h1) | h1) | h1) | h1) | h1
  all_goals first
    | omega
    | (subst h1; exact absurd h (by decide))

lemma jsParseInt_pair_two_digits (c d : Char) (hc : c.isDigit = true) (hd : d.isDigit = true) :
    jsParseInt [c, d] = some ((10 * digitVal c + digitVal d : Nat) : Int) := by
  have h48 := (isDigit_iff c).mp hc
  have h48d := (isDigit_iff d).mp hd
  have hws : jsWhitespace c = false := jsWhitespace_eq_false c h48.1
  have hminus : (c == '-') = false :=
    char_beq_false c '-' (by rw [show ('-').toNat = 45 from rfl]; omega)
  have hplus : (c == '+') = false :=
    char_beq_false c '+' (by rw [show ('+').toNat = 43 from rfl]; omega)
  have hdx : (d == 'x') = false :=
    char_beq_false d 'x' (by rw [show ('x').toNat = 120 from rfl]; omega)
  have hdX : (d == 'X') = false :=
    char_beq_false d 'X' (by rw [show ('X').toNat = 88 from rfl]; omega)
  simp only [jsParseInt, List.dropWhile_cons, hws, Bool.false_eq_true, if_false,
    List.headD_cons, hminus, hplus, Bool.or_self, List.tail_cons, hdx, hdX,
    Bool.and_false, List.takeWhile_cons, hc, hd, if_true, List.takeWhile_nil,
    List.isEmpty_cons, if_false]
  congr 1
  show ((((0 * 10 + digitVal c) * 10 + digitVal d : Nat) : Int)) = _
  push_cast
  ring

lemma jsParseInt_pair_nondigit (c d : Char) (h : 58 ≤ c.toNat) :
    jsParseInt [c, d] = none := by
  have hws : jsWhitespace c = false := jsWhitespace_eq_false c (by omega)
  have hminus : (c == '-') = false :=
    char_beq_false c '-' (by rw [show ('-').toNat = 45 from rfl]; omega)
  have hplus : (c == '+') = false :=
    char_beq_false c '+' (by rw [show ('+').toNat = 43 from rfl]; omega)
  have hzero : (c == '0') = false :=
    char_beq_false c '0' (by rw [show ('0').toNat = 48 from rfl]; omega)
  have hdig : c.isDigit = false := by
    rw [Bool.eq_false_iff]
    intro hd
    have := (isDigit_iff c).mp hd
    omega
  simp [jsParseInt, List.dropWhile_cons, hws, hminus, hplus, hzero,
    List.takeWhile_cons, hdig]

lemma jsParseInt_toDigits_pair : ∀ a, a < 10 → ∀ b, b < 10 →
    jsParseInt (Nat.toDigits 10 a ++ Nat.toDigits 10 b) = some ((10 * a + b : Nat) : Int) := by
  decide

end ParseFacts

section WeightedSums

lemma cpf_weightedSum_eq (l : List Nat) (w : Nat) :
    Cpf.weightedSum l w = ∑ i ∈ Finset.range l.length, l.getD i 0 * (w - i) := by
  induction l generalizing w with
  | nil => simp [Cpf.weightedSum]
  | cons n t ih =>
    rw [Cpf.weightedSum, List.length_cons, Finset.sum_range_succ']
    simp only [List.getD_cons_succ, List.getD_cons_zero, Nat.sub_zero]
    rw [ih (w - 1)]
    rw [Finset.sum_congr rfl (fun i _ => by rw [show w - 1 - i = w - (i + 1) by omega])]
    ring

lemma cnpj_weightedSumRev_eq (l : List Nat) (w : Nat) (h2 : 2 ≤ w) (h9 : w ≤ 9) :
    CnpjNumeric.weightedSumRev l w =
      ∑ k ∈ Finset.range l.length, l.getD k 0 * (2 + (w - 2 + k) % 8) := by
  induction l generalizing w with
  | nil => simp [CnpjNumeric.weightedSumRev]
  | cons n t ih =>
    rw [CnpjNumeric.weightedSumRev, List.length_cons, Finset.sum_range_succ']
    simp only [List.getD_cons_succ, List.getD_cons_zero]
    have hh : 2 + (w - 2 + 0) % 8 = w := by omega
    rw [hh]
    have hsum : CnpjNumeric.weightedSumRev t (if w = 9 then 2 else w + 1) =
        ∑ k ∈ Finset.range t.length, t.getD k 0 * (2 + (w - 2 + (k + 1)) % 8) := by
      split_ifs with hw
      · subst hw
        rw [ih 2 (by omega) (by omega)]
        exact Finset.sum_congr rfl (fun k _ => by rw [show 2 + (2 - 2 + k) % 8 = 2 + (9 - 2 + (k + 1)) % 8 by omega])
      · rw [ih (w + 1) (by omega) (by omega)]
        exact Finset.sum_congr rfl (fun k _ => by rw [show 2 + (w + 1 - 2 + k) % 8 = 2 + (w - 2 + (k + 1)) % 8 by omega])
    rw [hsum]
    ring

lemma alfa_weightedSumRev_eq_map (l : List JsSym) (w : Nat) :
    CnpjAlfanumeric.weightedSumRev l w = CnpjNumeric.weightedSumRev (l.map CnpjAlfanumeric.symVal) w := by
  induction l generalizing w with
  | nil => rfl
  | cons d t ih =>
    rw [CnpjAlfanumeric.weightedSumRev, List.map_cons, CnpjNumeric.weightedSumRev, ih]

lemma alfa_calculateCheckDigit_eq_map (l : List JsSym) :
    CnpjAlfanumeric.calculateCheckDigit l =
      CnpjNumeric.calculateCheckDigit (l.map CnpjAlfanumeric.symVal) := by
  simp only [CnpjAlfanumeric.calculateCheckDigit, CnpjNumeric.calculateCheckDigit]
  rw [← List.map_reverse, alfa_weightedSumRev_eq_map]

lemma symVal_map_num (l : List Nat) :
    (l.map JsSym.num).map CnpjAlfanumeric.symVal = l := by
  induction l with
  | nil => rfl
  | cons n t ih => simp only [List.map_cons, CnpjAlfanumeric.symVal, ih]

lemma alfa_calculateCheckDigit_num (l : List Nat) :
    CnpjAlfanumeric.calculateCheckDigit (l.map JsSym.num) = CnpjNumeric.calculateCheckDigit l := by
  rw [alfa_calculateCheckDigit_eq_map, symVal_map_num]

end WeightedSums

section FormatFacts

lemma take11_split (s : List Char) :
    s.take 11 = s.take 3 ++ (s.drop 3).take 3 ++ (s.drop 6).take 3 ++ (s.drop 9).take 2 := by
  rw [show (11 : Nat) = 3 + 8 from rfl, List.take_add]
  rw [show (8 : Nat) = 3 + 5 from rfl, List.take_add]
  rw [List.drop_drop, show (3 + 3 : Nat) = 6 from rfl]
  rw [show (5 : Nat) = 3 + 2 from rfl, List.take_add]
  rw [List.drop_drop, show (6 + 3 : Nat) = 9 from rfl]
  simp [List.append_assoc]

lemma take14_split (s : List Char) :
    s.take 14 = s.take 2 ++ (s.drop 2).take 3 ++ (s.drop 5).take 3 ++ (s.drop 8).take 4
      ++ (s.drop 12).take 2 := by
  rw [show (14 : Nat) = 2 + 12 from rfl, List.take_add]
  rw [show (12 : Nat) = 3 + 9 from rfl, List.take_add]
  rw [List.drop_drop, show (2 + 3 : Nat) = 5 from rfl]
  rw [show (9 : Nat) = 3 + 6 from rfl, List.take_add]
  rw [List.drop_drop, show (5 + 3 : Nat) = 8 from rfl]
  rw [show (6 : Nat) = 4 + 2 from rfl, List.take_add]
  rw [List.drop_drop, show (8 + 4 : Nat) = 12 from rfl]
  simp [List.append_assoc]

lemma cpf_formatMatchAt_clean (s r : List Char) (h : Cpf.formatMatchAt s = some r) :
    Cpf.cleanCPF r = Cpf.cleanCPF s := by
  rw [Cpf.formatMatchAt] at h
  split_ifs at h with hc
  · injection h with h
    subst h
    conv_rhs => rw [← List.take_append_drop 11 s, take11_split]
    simp [Cpf.cleanCPF, List.filter_append, List.filter_cons,
      show ('.').isDigit = false from rfl, show ('-').isDigit = false from rfl]

lemma cpf_clean_format (s : List Char) : Cpf.cleanCPF (Cpf.format s) = Cpf.cleanCPF s := by
  induction s with
  | nil => rfl
  | cons c rest ih =>
    rw [Cpf.format]
    cases hm : Cpf.formatMatchAt (c :: rest) with
    | some r => exact cpf_formatMatchAt_clean _ _ hm
    | none =>
      show Cpf.cleanCPF (c :: Cpf.format rest) = _
      simp only [Cpf.cleanCPF] at ih ⊢
      rw [List.filter_cons, List.filter_cons, ih]

lemma cnpj_formatMatchAt_clean (s r : List Char) (h : Cnpj.formatMatchAt s = some r) :
    r.filter isAlnumChar = s.filter isAlnumChar := by
  rw [Cnpj.formatMatchAt] at h
  split_ifs at h with hc
  · injection h with h
    subst h
    conv_rhs => rw [← List.take_append_drop 14 s, take14_split]
    simp [List.filter_append, List.filter_cons,
      show isAlnumChar '.' = false from rfl, show isAlnumChar '/' = false from rfl,
      show isAlnumChar '-' = false from rfl]

lemma cnpj_clean_format (s : List Char) :
    (Cnpj.format s).filter isAlnumChar = s.filter isAlnumChar := by
  induction s with
  | nil => rfl
  | cons c rest ih =>
    rw [Cnpj.format]
    cases hm : Cnpj.formatMatchAt (c :: rest) with
    | some r => exact cnpj_formatMatchAt_clean _ _ hm
    | none =>
      show (c :: Cnpj.format rest).filter isAlnumChar = _
      rw [List.filter_cons, List.filter_cons, ih]

lemma cpf_isValid_congr (s t : List Char) (h : Cpf.cleanCPF s = Cpf.cleanCPF t) :
    Cpf.isValid s = Cpf.isValid t := by
  unfold Cpf.isValid
  rw [h]

lemma cnpj_isValid_congr (s t : List Char) (h : s.filter isAlnumChar = t.filter isAlnumChar) :
    Cnpj.isValid s = Cnpj.isValid t := by
  unfold Cnpj.isValid
  rw [h]

end FormatFacts

lemma cpf_isValid_eq (s : List Char) :
    Cpf.isValid s =
      (if Cpf.isValidFormat (Cpf.cleanCPF s) then
        ((((Cpf.cleanCPF s).map digitVal).get? 9 ==
            some (Cpf.calculateCheckDigit (((Cpf.cleanCPF s).map digitVal).take 9))) &&
          (((Cpf.cleanCPF s).map digitVal).get? 10 ==
            some (Cpf.calculateCheckDigit ((((Cpf.cleanCPF s).map digitVal).take 9) ++
              [Cpf.calculateCheckDigit (((Cpf.cleanCPF s).map digitVal).take 9)]))))
      else false) := rfl

lemma cnpjN_validate_eq (s : List Char) :
    CnpjNumeric.validateNumeric s =
      (if CnpjNumeric.isValidFormat (CnpjNumeric.cleanCNPJ s true) then
        ((((CnpjNumeric.cleanCNPJ s true).map digitVal).get? 12 ==
            some (CnpjNumeric.calculateCheckDigit
              (((CnpjNumeric.cleanCNPJ s true).map digitVal).take 12))) &&
          (((CnpjNumeric.cleanCNPJ s true).map digitVal).get? 13 ==
            some (CnpjNumeric.calculateCheckDigit
              ((((CnpjNumeric.cleanCNPJ s true).map digitVal).take 12) ++
                [CnpjNumeric.calculateCheckDigit
                  (((CnpjNumeric.cleanCNPJ s true).map digitVal).take 12)]))))
      else false) := rfl


section Decomposition

lemma cpf_isValid_iff (t : List Char) (x y : Char) (ht : t.length = 9)
    (hall : ∀ c ∈ t, c.isDigit = true) (hx : x.isDigit = true) (hy : y.isDigit = true) :
    Cpf.isValid (t ++ [x, y]) = true ↔
      (Cpf.isValidFormat (t ++ [x, y]) = true ∧
        digitVal x = Cpf.calculateCheckDigit (t.map digitVal) ∧
        digitVal y = Cpf.calculateCheckDigit
          (t.map digitVal ++ [Cpf.calculateCheckDigit (t.map digitVal)])) := by
  have hclean : Cpf.cleanCPF (t ++ [x, y]) = t ++ [x, y] := by
    rw [Cpf.cleanCPF, List.filter_eq_self]
    intro a ha
    rcases List.mem_append.mp ha with h | h
    · exact hall a h
    · simp only [List.mem_cons, List.mem_singleton, List.not_mem_nil, or_false] at h
      rcases h with rfl | rfl
      · exact hx
      · exact hy
  have hmap : (t ++ [x, y]).map digitVal = t.map digitVal ++ [digitVal x, digitVal y] := by
    simp
  have hlen : (t.map digitVal).length = 9 := by simp [ht]
  have htake : ((t ++ [x, y]).map digitVal).take 9 = t.map digitVal := by
    rw [hmap, ← hlen, List.take_left]
  have hget9 : ((t ++ [x, y]).map digitVal).get? 9 = some (digitVal x) := by
    rw [hmap, List.get?_append_right (by omega), hlen]
    rfl
  have hget10 : ((t ++ [x, y]).map digitVal).get? 10 = some (digitVal y) := by
    rw [hmap, List.get?_append_right (by omega), hlen]
    rfl
  rw [cpf_isValid_eq, hclean, htake, hget9, hget10]
  split_ifs with hf
  · simp [hf, Bool.and_eq_true, beq_iff_eq]
  · simp only [Bool.false_eq_true, false_iff]
    intro hcontra
    exact absurd hcontra.1 hf

lemma cnpjN_validate_iff (t : List Char) (x y : Char) (ht : t.length = 12)
    (hall : ∀ c ∈ t, c.isDigit = true) (hx : x.isDigit = true) (hy : y.isDigit = true) :
    CnpjNumeric.validateNumeric (t ++ [x, y]) = true ↔
      (CnpjNumeric.isValidFormat (t ++ [x, y]) = true ∧
        digitVal x = CnpjNumeric.calculateCheckDigit (t.map digitVal) ∧
        digitVal y = CnpjNumeric.calculateCheckDigit
          (t.map digitVal ++ [CnpjNumeric.calculateCheckDigit (t.map digitVal)])) := by
  have hclean : CnpjNumeric.cleanCNPJ (t ++ [x, y]) true = t ++ [x, y] := by
    rw [CnpjNumeric.cleanCNPJ, if_pos rfl, List.filter_eq_self]
    intro a ha
    rcases List.mem_append.mp ha with h | h
    · exact hall a h
    · simp only [List.mem_cons, List.mem_singleton, List.not_mem_nil, or_false] at h
      rcases h with rfl | rfl
      · exact hx
      · exact hy
  have hmap : (t ++ [x, y]).map digitVal = t.map digitVal ++ [digitVal x, digitVal y] := by
    simp
  have hlen : (t.map digitVal).length = 12 := by simp [ht]
  have htake : ((t ++ [x, y]).map digitVal).take 12 = t.map digitVal := by
    rw [hmap, ← hlen, List.take_left]
  have hget12 : ((t ++ [x, y]).map digitVal).get? 12 = some (digitVal x) := by
    rw [hmap, List.get?_append_right (by omega), hlen]
    rfl
  have hget13 : ((t ++ [x, y]).map digitVal).get? 13 = some (digitVal y) := by
    rw [hmap, List.get?_append_right (by omega), hlen]
    rfl
  rw [cnpjN_validate_eq, hclean, htake, hget12, hget13]
  split_ifs with hf
  · simp [hf, Bool.and_eq_true, beq_iff_eq]
  · simp only [Bool.false_eq_true, false_iff]
    intro hcontra
    exact absurd hcontra.1 hf

lemma cnpj_isValid_alnum (u : List Char) (hlen : u.length = 14)
    (hall : ∀ c ∈ u, isAlnumChar c = true) :
    Cnpj.isValid u = if u.all Char.isDigit then CnpjNumeric.validateNumeric u
      else CnpjAlfanumeric.validateAlphanumeric u := by
  have hfilter : u.filter isAlnumChar = u := List.filter_eq_self.mpr hall
  have hne : u.isEmpty = false := by
    cases u with
    | nil => simp at hlen
    | cons a l => rfl
  have hnum : Cnpj.isNumeric u = u.all Char.isDigit := by
    simp [Cnpj.isNumeric, hne]
  have halfa : Cnpj.isAlfanumeric u = true := by
    simp [Cnpj.isAlfanumeric, hne]
    exact hall
  simp only [Cnpj.isValid, hfilter, hlen]
  rw [if_pos (show ((14 : Nat) == CNPJ_LENGTH) = true from rfl)]
  rw [hnum, halfa]
  by_cases hd : u.all Char.isDigit <;> simp [hd]

lemma validateAlphanumeric_iff (s : List Char) (h : s.length = 14) :
    CnpjAlfanumeric.validateAlphanumeric s = true ↔
      jsParseInt (s.drop 12) =
        some ((10 * (alfaCheckPair s).1 + (alfaCheckPair s).2 : Nat) : Int) := by
  have h1 : (alfaCheckPair s).1 < 10 := by
    simp only [alfaCheckPair, CnpjAlfanumeric.calculateCheckDigits]
    exact cnpjA_checkDigit_lt _
  have h2 : (alfaCheckPair s).2 < 10 := by
    simp only [alfaCheckPair, CnpjAlfanumeric.calculateCheckDigits]
    exact cnpjA_checkDigit_lt _
  have hcalc : jsParseInt (Nat.toDigits 10 (alfaCheckPair s).1
      ++ Nat.toDigits 10 (alfaCheckPair s).2) =
      some ((10 * (alfaCheckPair s).1 + (alfaCheckPair s).2 : Nat) : Int) :=
    jsParseInt_toDigits_pair _ h1 _ h2
  have e0 : CnpjAlfanumeric.validateAlphanumeric s =
      (match jsParseInt (s.drop (s.length - 2)),
          jsParseInt (Nat.toDigits 10 (CnpjAlfanumeric.calculateCheckDigits
              ((CnpjAlfanumeric.convertCnpj
                (if s.length == CNPJ_LENGTH then s.take 12 else s)).map JsSym.num)).1 ++
            Nat.toDigits 10 (CnpjAlfanumeric.calculateCheckDigits
              ((CnpjAlfanumeric.convertCnpj
                (if s.length == CNPJ_LENGTH then s.take 12 else s)).map JsSym.num)).2) with
        | some a, some b => a == b
        | _, _ => false) := rfl
  rw [e0, h]
  rw [if_pos (show ((14 : Nat) == CNPJ_LENGTH) = true from rfl)]
  rw [show (14 - 2 : Nat) = 12 from rfl]
  rw [show CnpjAlfanumeric.calculateCheckDigits
      ((CnpjAlfanumeric.convertCnpj (s.take 12)).map JsSym.num) = alfaCheckPair s from rfl]
  rw [hcalc]
  cases horig : jsParseInt (s.drop 12) with
  | none => simp
  | some a => simp [beq_iff_eq]

end Decomposition

section GeneratedDocuments

lemma symChar_isAlnum (s : JsSym) (h : symOk s = true) : isAlnumChar (symChar s) = true := by
  cases s with
  | num n =>
    have hn : n < 10 := by simpa [symOk] using h
    exact isAlnumChar_of_isDigit _ (digitChar_isDigit n hn)
  | letter c =>
    have hc : 65 ≤ c.toNat ∧ c.toNat ≤ 90 := by
      simpa [symOk, Bool.and_eq_true, decide_eq_true_eq] using h
    rw [isAlnumChar_iff]
    exact Or.inr (Or.inl hc)

lemma joinSyms_cons (a : JsSym) (t : List JsSym) :
    CnpjAlfanumeric.joinSyms (a :: t) =
      (match a with | .num n => Nat.toDigits 10 n | .letter c => [c])
        ++ CnpjAlfanumeric.joinSyms t := by
  simp [CnpjAlfanumeric.joinSyms]

lemma joinSyms_eq (l : List JsSym) (h : ∀ s ∈ l, symOk s = true) :
    CnpjAlfanumeric.joinSyms l = l.map symChar := by
  induction l with
  | nil => rfl
  | cons a t ih =>
    rw [joinSyms_cons, List.map_cons, ih (fun s hs => h s (by simp [hs]))]
    cases a with
    | num n =>
      have hn : n < 10 := by simpa [symOk] using h (JsSym.num n) (by simp)
      show Nat.toDigits 10 n ++ List.map symChar t = symChar (JsSym.num n) :: List.map symChar t
      rw [toDigits_eq_digitChar n hn]
      rfl
    | letter c => rfl

lemma convertCnpj_cons (c : Char) (t : List Char) :
    CnpjAlfanumeric.convertCnpj (c :: t) =
      (if c.isDigit then digitVal c else CnpjAlfanumeric.convertLetterToNumber c)
        :: CnpjAlfanumeric.convertCnpj t := by
  simp [CnpjAlfanumeric.convertCnpj]

lemma convertCnpj_map_symChar (l : List JsSym) (h : ∀ s ∈ l, symOk s = true) :
    CnpjAlfanumeric.convertCnpj (l.map symChar) = l.map CnpjAlfanumeric.symVal := by
  induction l with
  | nil => rfl
  | cons a t ih =>
    rw [List.map_cons, convertCnpj_cons, List.map_cons, ih (fun s hs => h s (by simp [hs]))]
    cases a with
    | num n =>
      have hn : n < 10 := by simpa [symOk] using h (JsSym.num n) (by simp)
      rw [show symChar (JsSym.num n) = Nat.digitChar n from rfl,
        if_pos (digitChar_isDigit n hn), digitVal_digitChar n hn]
      rfl
    | letter c =>
      have hc : 65 ≤ c.toNat ∧ c.toNat ≤ 90 := by
        simpa [symOk, Bool.and_eq_true, decide_eq_true_eq] using h (JsSym.letter c) (by simp)
      have hnd : c.isDigit = false := by
        rw [Bool.eq_false_iff]
        intro hdig
        have := (isDigit_iff c).mp hdig
        omega
      rw [show symChar (JsSym.letter c) = c from rfl, if_neg (by rw [hnd]; simp)]
      rfl

lemma map_digitVal_symChar_of_digits (l : List JsSym) (hok : ∀ s ∈ l, symOk s = true)
    (hdig : ∀ a ∈ l.map symChar, a.isDigit = true) :
    (l.map symChar).map digitVal = l.map CnpjAlfanumeric.symVal := by
  induction l with
  | nil => rfl
  | cons a t ih =>
    rw [List.map_cons, List.map_cons, List.map_cons,
      ih (fun s hs => hok s (by simp [hs])) (fun c hc => hdig c (by simp [hc]))]
    cases a with
    | num n =>
      have hn : n < 10 := by simpa [symOk] using hok (JsSym.num n) (by simp)
      rw [show symChar (JsSym.num n) = Nat.digitChar n from rfl, digitVal_digitChar n hn]
      rfl
    | letter c =>
      have hc : 65 ≤ c.toNat ∧ c.toNat ≤ 90 := by
        simpa [symOk, Bool.and_eq_true, decide_eq_true_eq] using hok (JsSym.letter c) (by simp)
      have hd : c.isDigit = true := hdig c (by simp [symChar])
      have := (isDigit_iff c).mp hd
      omega

lemma cpf_generate_chars (base : List Nat) (h : ∀ x ∈ base, x < 10) :
    Cpf.generate base = base.map Nat.digitChar ++
      [Nat.digitChar (Cpf.calculateCheckDigit base),
        Nat.digitChar (Cpf.calculateCheckDigit (base ++ [Cpf.calculateCheckDigit base]))] := by
  have h1 := cpf_checkDigit_lt base
  have h2 := cpf_checkDigit_lt (base ++ [Cpf.calculateCheckDigit base])
  rw [show Cpf.generate base = joinNums (base ++ [Cpf.calculateCheckDigit base,
    Cpf.calculateCheckDigit (base ++ [Cpf.calculateCheckDigit base])]) from rfl]
  rw [joinNums_eq _ (by
    intro x hx
    rcases List.mem_append.mp hx with hm | hm
    · exact h x hm
    · simp only [List.mem_cons, List.mem_singleton, List.not_mem_nil, or_false] at hm
      rcases hm with rfl | rfl
      · exact h1
      · exact h2)]
  simp

lemma cnpjN_generate_chars (base : List Nat) (h : ∀ x ∈ base, x < 10) :
    CnpjNumeric.generateNumeric base = base.map Nat.digitChar ++
      [Nat.digitChar (CnpjNumeric.calculateCheckDigit base),
        Nat.digitChar (CnpjNumeric.calculateCheckDigit
          (base ++ [CnpjNumeric.calculateCheckDigit base]))] := by
  have h1 := cnpjN_checkDigit_lt base
  have h2 := cnpjN_checkDigit_lt (base ++ [CnpjNumeric.calculateCheckDigit base])
  rw [show CnpjNumeric.generateNumeric base = joinNums (base ++
    [CnpjNumeric.calculateCheckDigit base,
      CnpjNumeric.calculateCheckDigit (base ++ [CnpjNumeric.calculateCheckDigit base])])
    from rfl]
  rw [joinNums_eq _ (by
    intro x hx
    rcases List.mem_append.mp hx with hm | hm
    · exact h x hm
    · simp only [List.mem_cons, List.mem_singleton, List.not_mem_nil, or_false] at hm
      rcases hm with rfl | rfl
      · exact h1
      · exact h2)]
  simp

lemma alfa_generate_chars (base : List JsSym) (h : ∀ s ∈ base, symOk s = true) :
    CnpjAlfanumeric.generateAlphanumeric base = base.map symChar ++
      [Nat.digitChar (CnpjAlfanumeric.calculateCheckDigit base),
        Nat.digitChar (CnpjAlfanumeric.calculateCheckDigit
          (base ++ [JsSym.num (CnpjAlfanumeric.calculateCheckDigit base)]))] := by
  have h1 := cnpjA_checkDigit_lt base
  have h2 := cnpjA_checkDigit_lt (base ++ [JsSym.num (CnpjAlfanumeric.calculateCheckDigit base)])
  rw [show CnpjAlfanumeric.generateAlphanumeric base = CnpjAlfanumeric.joinSyms (base ++
    [JsSym.num (CnpjAlfanumeric.calculateCheckDigit base),
      JsSym.num (CnpjAlfanumeric.calculateCheckDigit
        (base ++ [JsSym.num (CnpjAlfanumeric.calculateCheckDigit base)]))]) from rfl]
  rw [joinSyms_eq _ (by
    intro s hs
    rcases List.mem_append.mp hs with hm | hm
    · exact h s hm
    · simp only [List.mem_cons, List.mem_singleton, List.not_mem_nil, or_false] at hm
      rcases hm with rfl | rfl
      · simpa [symOk] using h1
      · simpa [symOk] using h2)]
  simp [symChar]

end GeneratedDocuments

section GeneratedValid

lemma cpf_isValid_format (u : List Char) : Cpf.isValid (Cpf.format u) = Cpf.isValid u :=
  cpf_isValid_congr _ _ (cpf_clean_format u)

lemma cnpj_isValid_format (u : List Char) : Cnpj.isValid (Cnpj.format u) = Cnpj.isValid u :=
  cnpj_isValid_congr _ _ (cnpj_clean_format u)

lemma mem_genchars_isDigit (base : List Nat) (hd : ∀ x ∈ base, x < 10) (a b : Nat)
    (ha : a < 10) (hb : b < 10) :
    ∀ c ∈ base.map Nat.digitChar ++ [Nat.digitChar a, Nat.digitChar b], c.isDigit = true := by
  intro c hc
  rcases List.mem_append.mp hc with h | h
  · exact all_isDigit_map_digitChar base hd c h
  · simp only [List.mem_cons, List.mem_singleton, List.not_mem_nil, or_false] at h
    rcases h with rfl | rfl
    · exact digitChar_isDigit a ha
    · exact digitChar_isDigit b hb

lemma cpf_generate_isValid (base : List Nat) (hl : base.length = 9)
    (hd : ∀ x ∈ base, x < 10)
    (hrep : repSeq (Cpf.generate base) = false)
    (hbl : Cpf.generate base ≠ "12345678909".data) :
    Cpf.isValid (Cpf.generate base) = true := by
  have h1 : Cpf.calculateCheckDigit base < 10 := cpf_checkDigit_lt base
  have h2 : Cpf.calculateCheckDigit (base ++ [Cpf.calculateCheckDigit base]) < 10 :=
    cpf_checkDigit_lt _
  rw [cpf_generate_chars base hd] at hrep hbl ⊢
  rw [cpf_isValid_iff (base.map Nat.digitChar) _ _ (by simp [hl])
    (all_isDigit_map_digitChar base hd) (digitChar_isDigit _ h1) (digitChar_isDigit _ h2)]
  refine ⟨?_, ?_, ?_⟩
  · rw [Cpf.isValidFormat, if_neg (by simp [hl, CPF_LENGTH])]
    rw [hrep, beq_eq_false_iff_ne.mpr hbl]
    rfl
  · rw [map_digitVal_digitChar base hd, digitVal_digitChar _ h1]
  · rw [map_digitVal_digitChar base hd, digitVal_digitChar _ h2]

lemma cnpjN_generate_isValid (base : List Nat) (hl : base.length = 12)
    (hd : ∀ x ∈ base, x < 10)
    (hrep : repSeq (CnpjNumeric.generateNumeric base) = false) :
    Cnpj.isValid (CnpjNumeric.generateNumeric base) = true := by
  have h1 : CnpjNumeric.calculateCheckDigit base < 10 := cnpjN_checkDigit_lt base
  have h2 : CnpjNumeric.calculateCheckDigit (base ++ [CnpjNumeric.calculateCheckDigit base]) < 10 :=
    cnpjN_checkDigit_lt _
  rw [cnpjN_generate_chars base hd] at hrep ⊢
  have hmem := mem_genchars_isDigit base hd _ _ h1 h2
  have hlen14 : (base.map Nat.digitChar ++ [Nat.digitChar (CnpjNumeric.calculateCheckDigit base),
      Nat.digitChar (CnpjNumeric.calculateCheckDigit
        (base ++ [CnpjNumeric.calculateCheckDigit base]))]).length = 14 := by
    simp [hl]
  rw [cnpj_isValid_alnum _ hlen14 (fun c hc => isAlnumChar_of_isDigit c (hmem c hc))]
  rw [if_pos (List.all_eq_true.mpr hmem)]
  rw [cnpjN_validate_iff (base.map Nat.digitChar) _ _ (by simp [hl])
    (all_isDigit_map_digitChar base hd) (digitChar_isDigit _ h1) (digitChar_isDigit _ h2)]
  refine ⟨?_, ?_, ?_⟩
  · rw [CnpjNumeric.isValidFormat, hrep]
    simp [hl, CNPJ_LENGTH]
  · rw [map_digitVal_digitChar base hd, digitVal_digitChar _ h1]
  · rw [map_digitVal_digitChar base hd, digitVal_digitChar _ h2]

lemma alfa_generate_isValid (base : List JsSym) (hl : base.length = 12)
    (hok : ∀ s ∈ base, symOk s = true)
    (hrep : repSeq (CnpjAlfanumeric.generateAlphanumeric base) = false) :
    Cnpj.isValid (CnpjAlfanumeric.generateAlphanumeric base) = true := by
  have h1 : CnpjAlfanumeric.calculateCheckDigit base < 10 := cnpjA_checkDigit_lt base
  have h2 : CnpjAlfanumeric.calculateCheckDigit
      (base ++ [JsSym.num (CnpjAlfanumeric.calculateCheckDigit base)]) < 10 :=
    cnpjA_checkDigit_lt _
  rw [alfa_generate_chars base hok] at hrep ⊢
  have hlen14 : (base.map symChar ++ [Nat.digitChar (CnpjAlfanumeric.calculateCheckDigit base),
      Nat.digitChar (CnpjAlfanumeric.calculateCheckDigit
        (base ++ [JsSym.num (CnpjAlfanumeric.calculateCheckDigit base)]))]).length = 14 := by
    simp [hl]
  have halnum : ∀ c ∈ base.map symChar ++
      [Nat.digitChar (CnpjAlfanumeric.calculateCheckDigit base),
        Nat.digitChar (CnpjAlfanumeric.calculateCheckDigit
          (base ++ [JsSym.num (CnpjAlfanumeric.calculateCheckDigit base)]))],
      isAlnumChar c = true := by
    intro c hc
    rcases List.mem_append.mp hc with h | h
    · rw [List.mem_map] at h
      obtain ⟨s, hs, rfl⟩ := h
      exact symChar_isAlnum s (hok s hs)
    · simp only [List.mem_cons, List.mem_singleton, List.not_mem_nil, or_false] at h
      rcases h with rfl | rfl
      · exact isAlnumChar_of_isDigit _ (digitChar_isDigit _ h1)
      · exact isAlnumChar_of_isDigit _ (digitChar_isDigit _ h2)
  rw [cnpj_isValid_alnum _ hlen14 halnum]
  by_cases hdall : (base.map symChar ++
      [Nat.digitChar (CnpjAlfanumeric.calculateCheckDigit base),
        Nat.digitChar (CnpjAlfanumeric.calculateCheckDigit
          (base ++ [JsSym.num (CnpjAlfanumeric.calculateCheckDigit base)]))]).all
        Char.isDigit = true
  · rw [if_pos hdall]
    have hdig : ∀ a ∈ base.map symChar, a.isDigit = true := by
      intro a ha
      exact List.all_eq_true.mp hdall a (List.mem_append_left _ ha)
    have hmv : (base.map symChar).map digitVal = base.map CnpjAlfanumeric.symVal :=
      map_digitVal_symChar_of_digits base hok hdig
    rw [cnpjN_validate_iff (base.map symChar) _ _ (by simp [hl]) hdig
      (digitChar_isDigit _ h1) (digitChar_isDigit _ h2)]
    refine ⟨?_, ?_, ?_⟩
    · rw [CnpjNumeric.isValidFormat, hrep]
      simp [hl, CNPJ_LENGTH]
    · rw [hmv, digitVal_digitChar _ h1, ← alfa_calculateCheckDigit_eq_map]
    · rw [hmv, digitVal_digitChar _ h2]
      rw [(alfa_calculateCheckDigit_eq_map base).symm]
      rw [show base.map CnpjAlfanumeric.symVal ++ [CnpjAlfanumeric.calculateCheckDigit base] =
        (base ++ [JsSym.num (CnpjAlfanumeric.calculateCheckDigit base)]).map
          CnpjAlfanumeric.symVal by simp [CnpjAlfanumeric.symVal]]
      rw [← alfa_calculateCheckDigit_eq_map]
  · rw [if_neg (by rw [Bool.not_eq_true] at hdall; rw [hdall]; simp)]
    rw [validateAlphanumeric_iff _ hlen14]
    have hdrop : (base.map symChar ++
        [Nat.digitChar (CnpjAlfanumeric.calculateCheckDigit base),
          Nat.digitChar (CnpjAlfanumeric.calculateCheckDigit
            (base ++ [JsSym.num (CnpjAlfanumeric.calculateCheckDigit base)]))]).drop 12 =
        [Nat.digitChar (CnpjAlfanumeric.calculateCheckDigit base),
          Nat.digitChar (CnpjAlfanumeric.calculateCheckDigit
            (base ++ [JsSym.num (CnpjAlfanumeric.calculateCheckDigit base)]))] := by
      rw [show (12 : Nat) = (base.map symChar).length by simp [hl], List.drop_left]
    have htake : (base.map symChar ++
        [Nat.digitChar (CnpjAlfanumeric.calculateCheckDigit base),
          Nat.digitChar (CnpjAlfanumeric.calculateCheckDigit
            (base ++ [JsSym.num (CnpjAlfanumeric.calculateCheckDigit base)]))]).take 12 =
        base.map symChar := by
      rw [show (12 : Nat) = (base.map symChar).length by simp [hl], List.take_left]
    rw [hdrop, jsParseInt_pair_two_digits _ _ (digitChar_isDigit _ h1) (digitChar_isDigit _ h2),
      digitVal_digitChar _ h1, digitVal_digitChar _ h2]
    have hpair : alfaCheckPair (base.map symChar ++
        [Nat.digitChar (CnpjAlfanumeric.calculateCheckDigit base),
          Nat.digitChar (CnpjAlfanumeric.calculateCheckDigit
            (base ++ [JsSym.num (CnpjAlfanumeric.calculateCheckDigit base)]))]) =
        (CnpjAlfanumeric.calculateCheckDigit base,
          CnpjAlfanumeric.calculateCheckDigit
            (base ++ [JsSym.num (CnpjAlfanumeric.calculateCheckDigit base)])) := by
      rw [alfaCheckPair, htake, convertCnpj_map_symChar base hok]
      have c1 : CnpjAlfanumeric.calculateCheckDigit
          ((base.map CnpjAlfanumeric.symVal).map JsSym.num) =
          CnpjAlfanumeric.calculateCheckDigit base := by
        rw [alfa_calculateCheckDigit_num, ← alfa_calculateCheckDigit_eq_map]
      have c2 : CnpjAlfanumeric.calculateCheckDigit
          ((base.map CnpjAlfanumeric.symVal).map JsSym.num ++
            [JsSym.num (CnpjAlfanumeric.calculateCheckDigit
              ((base.map CnpjAlfanumeric.symVal).map JsSym.num))]) =
          CnpjAlfanumeric.calculateCheckDigit
            (base ++ [JsSym.num (CnpjAlfanumeric.calculateCheckDigit base)]) := by
        rw [c1]
        rw [show (base.map CnpjAlfanumeric.symVal).map JsSym.num ++
          [JsSym.num (CnpjAlfanumeric.calculateCheckDigit base)] =
          ((base.map CnpjAlfanumeric.symVal) ++
            [CnpjAlfanumeric.calculateCheckDigit base]).map JsSym.num by simp]
        rw [alfa_calculateCheckDigit_num]
        rw [show base.map CnpjAlfanumeric.symVal ++ [CnpjAlfanumeric.calculateCheckDigit base] =
          (base ++ [JsSym.num (CnpjAlfanumeric.calculateCheckDigit base)]).map
            CnpjAlfanumeric.symVal by simp [CnpjAlfanumeric.symVal]]
        rw [← alfa_calculateCheckDigit_eq_map]
      simp only [CnpjAlfanumeric.calculateCheckDigits, Prod.mk.injEq]
      exact ⟨c1, c2⟩
    rw [hpair]

end GeneratedValid

section Mutation

lemma convertCnpj_all_digits (t : List Char) (h : ∀ c ∈ t, c.isDigit = true) :
    CnpjAlfanumeric.convertCnpj t = t.map digitVal := by
  induction t with
  | nil => rfl
  | cons c r ih =>
    rw [convertCnpj_cons, List.map_cons, if_pos (h c (by simp)),
      ih (fun a ha => h a (by simp [ha]))]

lemma cpf_mutation (t : List Char) (x y x' y' : Char) (ht : t.length = 9)
    (hall : ∀ c ∈ t, c.isDigit = true) (hx : x.isDigit = true) (hy : y.isDigit = true)
    (hx' : x'.isDigit = true) (hy' : y'.isDigit = true)
    (hvalid : Cpf.isValid (t ++ [x, y]) = true) (hxx : x' ≠ x) (hyy : y' ≠ y) :
    Cpf.isValid (t ++ [x', y]) = false ∧ Cpf.isValid (t ++ [x, y']) = false := by
  obtain ⟨hf, h1, h2⟩ := (cpf_isValid_iff t x y ht hall hx hy).mp hvalid
  constructor
  · rw [Bool.eq_false_iff]
    intro hvd
    obtain ⟨_, h1', _⟩ := (cpf_isValid_iff t x' y ht hall hx' hy).mp hvd
    exact hxx (digitVal_inj x' x hx' hx (h1'.trans h1.symm))
  · rw [Bool.eq_false_iff]
    intro hvd
    obtain ⟨_, _, h2'⟩ := (cpf_isValid_iff t x y' ht hall hx hy').mp hvd
    exact hyy (digitVal_inj y' y hy' hy (h2'.trans h2.symm))

lemma cnpjN_mutation (t : List Char) (x y x' y' : Char) (ht : t.length = 12)
    (hall : ∀ c ∈ t, c.isDigit = true) (hx : x.isDigit = true) (hy : y.isDigit = true)
    (hx' : x'.isDigit = true) (hy' : y'.isDigit = true)
    (hvalid : Cnpj.isValid (t ++ [x, y]) = true) (hxx : x' ≠ x) (hyy : y' ≠ y) :
    Cnpj.isValid (t ++ [x', y]) = false ∧ Cnpj.isValid (t ++ [x, y']) = false := by
  have hmem : ∀ a b : Char, a.isDigit = true → b.isDigit = true →
      ∀ c ∈ t ++ [a, b], c.isDigit = true := by
    intro a b ha hb c hc
    rcases List.mem_append.mp hc with h | h
    · exact hall c h
    · simp only [List.mem_cons, List.mem_singleton, List.not_mem_nil, or_false] at h
      rcases h with rfl | rfl
      · exact ha
      · exact hb
  have route : ∀ a b : Char, a.isDigit = true → b.isDigit = true →
      Cnpj.isValid (t ++ [a, b]) = CnpjNumeric.validateNumeric (t ++ [a, b]) := by
    intro a b ha hb
    rw [cnpj_isValid_alnum _ (by simp [ht])
      (fun c hc => isAlnumChar_of_isDigit c (hmem a b ha hb c hc))]
    rw [if_pos (List.all_eq_true.mpr (hmem a b ha hb))]
  rw [route x y hx hy] at hvalid
  obtain ⟨hf, h1, h2⟩ := (cnpjN_validate_iff t x y ht hall hx hy).mp hvalid
  constructor
  · rw [route x' y hx' hy, Bool.eq_false_iff]
    intro hvd
    obtain ⟨_, h1', _⟩ := (cnpjN_validate_iff t x' y ht hall hx' hy).mp hvd
    exact hxx (digitVal_inj x' x hx' hx (h1'.trans h1.symm))
  · rw [route x y' hx hy', Bool.eq_false_iff]
    intro hvd
    obtain ⟨_, _, h2'⟩ := (cnpjN_validate_iff t x y' ht hall hx hy').mp hvd
    exact hyy (digitVal_inj y' y hy' hy (h2'.trans h2.symm))

lemma cnpjA_mutation (t : List Char) (x y x' y' : Char) (ht : t.length = 12)
    (hall : ∀ c ∈ t, isAlnumChar c = true) (hx : isAlnumChar x = true)
    (hy : isAlnumChar y = true) (hx' : isAlnumChar x' = true) (hy' : isAlnumChar y' = true)
    (hletter : (t ++ [x, y]).all Char.isDigit = false)
    (hvalid : Cnpj.isValid (t ++ [x, y]) = true) :
    (jsParseInt [x', y] ≠ jsParseInt [x, y] → Cnpj.isValid (t ++ [x', y]) = false) ∧
    (jsParseInt [x, y'] ≠ jsParseInt [x, y] → Cnpj.isValid (t ++ [x, y']) = false) := by
  have halnum : ∀ a b : Char, isAlnumChar a = true → isAlnumChar b = true →
      ∀ c ∈ t ++ [a, b], isAlnumChar c = true := by
    intro a b ha hb c hc
    rcases List.mem_append.mp hc with h | h
    · exact hall c h
    · simp only [List.mem_cons, List.mem_singleton, List.not_mem_nil, or_false] at h
      rcases h with rfl | rfl
      · exact ha
      · exact hb
  have hlen : ∀ a b : Char, (t ++ [a, b]).length = 14 := by
    intro a b
    simp [ht]
  have hdrop : ∀ a b : Char, (t ++ [a, b]).drop 12 = [a, b] := by
    intro a b
    rw [show (12 : Nat) = t.length from ht.symm, List.drop_left]
  have htke : ∀ a b : Char, (t ++ [a, b]).take 12 = t := by
    intro a b
    rw [show (12 : Nat) = t.length from ht.symm, List.take_left]
  have hPmut : ∀ a b : Char, alfaCheckPair (t ++ [a, b]) = alfaCheckPair (t ++ [x, y]) := by
    intro a b
    rw [alfaCheckPair, alfaCheckPair, htke, htke]
  rw [cnpj_isValid_alnum _ (hlen x y) (halnum x y hx hy), if_neg (by rw [hletter]; simp)]
    at hvalid
  rw [validateAlphanumeric_iff _ (hlen x y), hdrop] at hvalid
  constructor
  · intro hne
    by_cases hd : (t ++ [x', y]).all Char.isDigit = true
    · rw [cnpj_isValid_alnum _ (hlen x' y) (halnum x' y hx' hy), if_pos hd, Bool.eq_false_iff]
      intro hvd
      have hdigs : ∀ c ∈ t ++ [x', y], c.isDigit = true := List.all_eq_true.mp hd
      have hallt : ∀ c ∈ t, c.isDigit = true := fun c hc => hdigs c (List.mem_append_left _ hc)
      have hxd : x'.isDigit = true := hdigs x' (by simp)
      have hyd : y.isDigit = true := hdigs y (by simp)
      obtain ⟨_, h1', h2'⟩ := (cnpjN_validate_iff t x' y ht hallt hxd hyd).mp hvd
      have hconv : CnpjAlfanumeric.convertCnpj t = t.map digitVal :=
        convertCnpj_all_digits t hallt
      have hP1 : (alfaCheckPair (t ++ [x, y])).1 =
          CnpjNumeric.calculateCheckDigit (t.map digitVal) := by
        simp only [alfaCheckPair, CnpjAlfanumeric.calculateCheckDigits]
        rw [htke, hconv, alfa_calculateCheckDigit_num]
      have hP2 : (alfaCheckPair (t ++ [x, y])).2 =
          CnpjNumeric.calculateCheckDigit (t.map digitVal ++
            [CnpjNumeric.calculateCheckDigit (t.map digitVal)]) := by
        simp only [alfaCheckPair, CnpjAlfanumeric.calculateCheckDigits]
        rw [htke, hconv]
        rw [show (t.map digitVal).map JsSym.num ++
          [JsSym.num (CnpjAlfanumeric.calculateCheckDigit ((t.map digitVal).map JsSym.num))] =
          ((t.map digitVal) ++
            [CnpjAlfanumeric.calculateCheckDigit ((t.map digitVal).map JsSym.num)]).map
            JsSym.num by simp]
        rw [alfa_calculateCheckDigit_num, alfa_calculateCheckDigit_num]
      apply hne
      rw [jsParseInt_pair_two_digits x' y hxd hyd, hvalid, h1', h2', hP1, hP2]
    · rw [cnpj_isValid_alnum _ (hlen x' y) (halnum x' y hx' hy), if_neg hd, Bool.eq_false_iff]
      intro hvd
      rw [validateAlphanumeric_iff _ (hlen x' y), hdrop, hPmut] at hvd
      exact hne (hvd.trans hvalid.symm)
  · intro hne
    by_cases hd : (t ++ [x, y']).all Char.isDigit = true
    · rw [cnpj_isValid_alnum _ (hlen x y') (halnum x y' hx hy'), if_pos hd, Bool.eq_false_iff]
      intro hvd
      have hdigs : ∀ c ∈ t ++ [x, y'], c.isDigit = true := List.all_eq_true.mp hd
      have hallt : ∀ c ∈ t, c.isDigit = true := fun c hc => hdigs c (List.mem_append_left _ hc)
      have hxd : x.isDigit = true := hdigs x (by simp)
      have hyd : y'.isDigit = true := hdigs y' (by simp)
      obtain ⟨_, h1', h2'⟩ := (cnpjN_validate_iff t x y' ht hallt hxd hyd).mp hvd
      have hconv : CnpjAlfanumeric.convertCnpj t = t.map digitVal :=
        convertCnpj_all_digits t hallt
      have hP1 : (alfaCheckPair (t ++ [x, y])).1 =
          CnpjNumeric.calculateCheckDigit (t.map digitVal) := by
        simp only [alfaCheckPair, CnpjAlfanumeric.calculateCheckDigits]
        rw [htke, hconv, alfa_calculateCheckDigit_num]
      have hP2 : (alfaCheckPair (t ++ [x, y])).2 =
          CnpjNumeric.calculateCheckDigit (t.map digitVal ++
            [CnpjNumeric.calculateCheckDigit (t.map digitVal)]) := by
        simp only [alfaCheckPair, CnpjAlfanumeric.calculateCheckDigits]
        rw [htke, hconv]
        rw [show (t.map digitVal).map JsSym.num ++
          [JsSym.num (CnpjAlfanumeric.calculateCheckDigit ((t.map digitVal).map JsSym.num))] =
          ((t.map digitVal) ++
            [CnpjAlfanumeric.calculateCheckDigit ((t.map digitVal).map JsSym.num)]).map
            JsSym.num by simp]
        rw [alfa_calculateCheckDigit_num, alfa_calculateCheckDigit_num]
      apply hne
      rw [jsParseInt_pair_two_digits x y' hxd hyd, hvalid, h1', h2', hP1, hP2]
    · rw [cnpj_isValid_alnum _ (hlen x y') (halnum x y' hx hy'), if_neg hd, Bool.eq_false_iff]
      intro hvd
      rw [validateAlphanumeric_iff _ (hlen x y'), hdrop, hPmut] at hvd
      exact hne (hvd.trans hvalid.symm)

end Mutation

/-- Claim C1, counterexample: the all-ones draw is an admissible output of
generateBaseCPF (nine independent digits below 10), yet the document that
cpf.generate builds from it is "11111111111", which isValid rejects through
the repeated-sequence blacklist.  So a generated document can fail isValid,
contradicting the claim as stated. -/
theorem C1_counterexample :
    (List.replicate 9 1).length = 9 ∧ (∀ x ∈ List.replicate 9 1, x < 10) ∧
      Cpf.isValid (Cpf.generate (List.replicate 9 1)) = false :=
  ⟨by decide, by decide, by decide⟩

/-- Claim C1 (amended): for every admissible random draw of each of the three
generators, if the generated document is not a repeated-single-digit string
and (for CPF) is not the blacklisted "12345678909", then isValid accepts both
the document and its formatted form. -/
theorem C1_generated_roundtrip :
    (∀ base : List Nat, base.length = 9 → (∀ x ∈ base, x < 10) →
      repSeq (Cpf.generate base) = false → Cpf.generate base ≠ "12345678909".data →
      Cpf.isValid (Cpf.generate base) = true ∧
        Cpf.isValid (Cpf.format (Cpf.generate base)) = true) ∧
    (∀ base : List Nat, base.length = 12 → (∀ x ∈ base, x < 10) →
      repSeq (CnpjNumeric.generateNumeric base) = false →
      Cnpj.isValid (CnpjNumeric.generateNumeric base) = true ∧
        Cnpj.isValid (Cnpj.format (CnpjNumeric.generateNumeric base)) = true) ∧
    (∀ base : List JsSym, base.length = 12 → (∀ s ∈ base, symOk s = true) →
      repSeq (CnpjAlfanumeric.generateAlphanumeric base) = false →
      Cnpj.isValid (CnpjAlfanumeric.generateAlphanumeric base) = true ∧
        Cnpj.isValid (Cnpj.format (CnpjAlfanumeric.generateAlphanumeric base)) = true) := by
  refine ⟨fun base hl hd hrep hbl => ⟨cpf_generate_isValid base hl hd hrep hbl, ?_⟩,
    fun base hl hd hrep => ⟨cnpjN_generate_isValid base hl hd hrep, ?_⟩,
    fun base hl hok hrep => ⟨alfa_generate_isValid base hl hok hrep, ?_⟩⟩
  · rw [cpf_isValid_format]
    exact cpf_generate_isValid base hl hd hrep hbl
  · rw [cnpj_isValid_format]
    exact cnpjN_generate_isValid base hl hd hrep
  · rw [cnpj_isValid_format]
    exact alfa_generate_isValid base hl hok hrep

/-- Claim C1 (amended), witness: the amended round-trip theorem at one
concrete draw of each generator. -/
theorem C1_generated_roundtrip_witness :
    (Cpf.isValid (Cpf.generate [0, 7, 2, 0, 8, 7, 6, 6, 0]) = true ∧
      Cpf.isValid (Cpf.format (Cpf.generate [0, 7, 2, 0, 8, 7, 6, 6, 0])) = true) ∧
    (Cnpj.isValid (CnpjNumeric.generateNumeric [5, 4, 5, 5, 0, 7, 5, 2, 0, 0, 0, 1]) = true ∧
      Cnpj.isValid (Cnpj.format
        (CnpjNumeric.generateNumeric [5, 4, 5, 5, 0, 7, 5, 2, 0, 0, 0, 1])) = true) ∧
    (Cnpj.isValid (CnpjAlfanumeric.generateAlphanumeric
        [JsSym.letter 'O', JsSym.letter 'G', JsSym.letter 'Z', JsSym.letter 'P',
          JsSym.num 0, JsSym.letter 'N', JsSym.num 7, JsSym.num 7,
          JsSym.num 4, JsSym.num 4, JsSym.num 4, JsSym.letter 'Y']) = true ∧
      Cnpj.isValid (Cnpj.format (CnpjAlfanumeric.generateAlphanumeric
        [JsSym.letter 'O', JsSym.letter 'G', JsSym.letter 'Z', JsSym.letter 'P',
          JsSym.num 0, JsSym.letter 'N', JsSym.num 7, JsSym.num 7,
          JsSym.num 4, JsSym.num 4, JsSym.num 4, JsSym.letter 'Y'])) = true) :=
  ⟨C1_generated_roundtrip.1 _ (by decide) (by decide) (by decide) (by decide),
    C1_generated_roundtrip.2.1 _ (by decide) (by decide) (by decide),
    C1_generated_roundtrip.2.2 _ (by decide) (by decide) (by decide)⟩

/-- Claim C2: formatting never changes the verdict of validation; the law even
holds for every string, hence in particular for every generated document of
either type. -/
theorem C2_format_transparent (x : List Char) :
    Cpf.isValid (Cpf.format x) = Cpf.isValid x ∧
      Cnpj.isValid (Cnpj.format x) = Cnpj.isValid x :=
  ⟨cpf_isValid_format x, cnpj_isValid_format x⟩

/-- Claim C4: cpf.isValid fails closed on every input whose cleaned form has
length other than 11, on every cleaned form that is one digit repeated 11
times, and on the cleaned form "12345678909". -/
theorem C4_cpf_blacklist : ∀ s : List Char,
    ((Cpf.cleanCPF s).length ≠ 11 ∨
      (∃ c : Char, c.isDigit = true ∧ Cpf.cleanCPF s = List.replicate 11 c) ∨
      Cpf.cleanCPF s = "12345678909".data) →
    Cpf.isValid s = false := by
  intro s h
  have hfmt : Cpf.isValidFormat (Cpf.cleanCPF s) = false := by
    rcases h with h | ⟨c, hc, heq⟩ | heq
    · rw [Cpf.isValidFormat, if_pos (show (Cpf.cleanCPF s).length ≠ CPF_LENGTH from h)]
    · rw [heq, Cpf.isValidFormat, if_neg (by simp [CPF_LENGTH])]
      have hrep : repSeq (List.replicate 11 c) = true := by
        rw [show List.replicate 11 c = c :: List.replicate 10 c from rfl, repSeq, hc]
        simp [List.all_eq_true, List.mem_replicate]
      rw [hrep]
      rfl
    · rw [heq]
      decide
  rw [cpf_isValid_eq, hfmt]
  simp

/-- Claim C4, witness: the blacklist theorem applied to the repeated-digit
string "00000000000". -/
theorem C4_cpf_blacklist_witness : Cpf.isValid "00000000000".data = false :=
  C4_cpf_blacklist _ (Or.inr (Or.inl ⟨'0', by decide, by decide⟩))

/-- Claim C5: the CPF check digit of a sequence equals the spec formula (the
element at 0-based position i from the left weighted by length + 1 - i, sum
reduced modulo 11, remainder below 2 giving 0 and any other remainder r
giving 11 - r), and the two check digits of a generated CPF are computed
sequentially, the second over the base extended by the first. -/
theorem C5_cpf_check_digit_spec :
    (∀ values : List Nat, Cpf.calculateCheckDigit values = spec_cpfCheckDigit values) ∧
    (∀ base : List Nat, Cpf.generate base = joinNums (base ++
      [Cpf.calculateCheckDigit base,
        Cpf.calculateCheckDigit (base ++ [Cpf.calculateCheckDigit base])])) := by
  constructor
  · intro values
    simp only [Cpf.calculateCheckDigit, spec_cpfCheckDigit]
    rw [cpf_weightedSum_eq]
  · intro base
    rfl

/-- Claim C6: both CNPJ engines weight from the rightmost element leftward
with the cycling weights 2..9 (the element at distance k from the right end
is weighted by 2 + k mod 8) and apply the same modulo-11 remainder rule; the
alphanumeric engine does so after taking each position's numeric value. -/
theorem C6_cnpj_weighting :
    (∀ values : List Nat,
      CnpjNumeric.calculateCheckDigit values = spec_cnpjCheckDigit values) ∧
    (∀ digits : List JsSym, CnpjAlfanumeric.calculateCheckDigit digits =
      spec_cnpjCheckDigit (digits.map CnpjAlfanumeric.symVal)) := by
  have hnum : ∀ values : List Nat,
      CnpjNumeric.calculateCheckDigit values = spec_cnpjCheckDigit values := by
    intro values
    simp only [CnpjNumeric.calculateCheckDigit, spec_cnpjCheckDigit]
    rw [cnpj_weightedSumRev_eq values.reverse 2 (by omega) (by omega)]
    simp only [List.length_reverse, Nat.sub_self, Nat.zero_add]
  refine ⟨hnum, fun digits => ?_⟩
  rw [alfa_calculateCheckDigit_eq_map, hnum]

/-- Claim C7: in the alphanumeric engine a character is valued as its own
digit value when it is a decimal digit, as its fixed table value (character
code minus 48, so A gives 17 and Z gives 42) when it is an uppercase letter,
and as 0 for every other character. -/
theorem C7_position_valuation :
    (∀ c : Char, CnpjAlfanumeric.convertCnpj [c] =
      [if c.isDigit = true ∨ (65 ≤ c.toNat ∧ c.toNat ≤ 90) then c.toNat - 48 else 0]) ∧
    CnpjAlfanumeric.convertLetterToNumber 'A' = 17 ∧
    CnpjAlfanumeric.convertLetterToNumber 'Z' = 42 := by
  refine ⟨fun c => ?_, by decide, by decide⟩
  rw [convertCnpj_cons]
  by_cases hd : c.isDigit = true
  · rw [if_pos hd, if_pos (Or.inl hd)]
    rfl
  · rw [if_neg hd]
    by_cases hu : 65 ≤ c.toNat ∧ c.toNat ≤ 90
    · rw [if_pos (Or.inr hu), convertLetterToNumber_upper c hu.1 hu.2]
      rfl
    · rw [if_neg (by tauto), convertLetterToNumber_other c hu]
      rfl

/-- Claim C3, counterexample: "0000000000000A" is accepted by cnpj.isValid
(the alphanumeric comparison parses the trailing pair "0A" as the integer 0),
and mutating its last character to the alphabet character 'B' leaves the
parsed trailing pair unchanged, so the mutated document is still accepted.
This contradicts the claim that every such mutation makes isValid false. -/
theorem C3_counterexample :
    Cnpj.isValid "0000000000000A".data = true ∧
      Cnpj.isValid "0000000000000B".data = true :=
  ⟨by decide, by decide⟩

/-- Claim C3 (amended): for a valid CPF or numeric CNPJ in cleaned form,
changing either of the last two characters to any other digit makes isValid
false; for a valid cleaned alphanumeric CNPJ (one that contains a letter),
changing either of the last two characters makes isValid false whenever the
change alters the parseInt value (full default-radix semantics, hex prefix
included) of the trailing two-character pair — while a mutation that leaves
that parsed integer unchanged, such as the trailing A of the counterexample
becoming B, can leave the document valid. -/
theorem C3_mutation_sensitivity :
    (∀ (t : List Char) (x y x' y' : Char), t.length = 9 →
      (∀ c ∈ t, c.isDigit = true) → x.isDigit = true → y.isDigit = true →
      x'.isDigit = true → y'.isDigit = true →
      Cpf.isValid (t ++ [x, y]) = true → x' ≠ x → y' ≠ y →
      Cpf.isValid (t ++ [x', y]) = false ∧ Cpf.isValid (t ++ [x, y']) = false) ∧
    (∀ (t : List Char) (x y x' y' : Char), t.length = 12 →
      (∀ c ∈ t, c.isDigit = true) → x.isDigit = true → y.isDigit = true →
      x'.isDigit = true → y'.isDigit = true →
      Cnpj.isValid (t ++ [x, y]) = true → x' ≠ x → y' ≠ y →
      Cnpj.isValid (t ++ [x', y]) = false ∧ Cnpj.isValid (t ++ [x, y']) = false) ∧
    (∀ (t : List Char) (x y x' y' : Char), t.length = 12 →
      (∀ c ∈ t, isAlnumChar c = true) → isAlnumChar x = true → isAlnumChar y = true →
      isAlnumChar x' = true → isAlnumChar y' = true →
      (t ++ [x, y]).all Char.isDigit = false →
      Cnpj.isValid (t ++ [x, y]) = true →
      (jsParseInt [x', y] ≠ jsParseInt [x, y] → Cnpj.isValid (t ++ [x', y]) = false) ∧
      (jsParseInt [x, y'] ≠ jsParseInt [x, y] → Cnpj.isValid (t ++ [x, y']) = false)) :=
  ⟨cpf_mutation, cnpjN_mutation, cnpjA_mutation⟩

/-- Claim C3 (amended), witness: each part of the mutation theorem applied to
one concrete valid document with concrete mutations of the check digits. -/
theorem C3_mutation_sensitivity_witness :
    (Cpf.isValid ("295379955".data ++ ['0', '3']) = false ∧
      Cpf.isValid ("295379955".data ++ ['9', '0']) = false) ∧
    (Cnpj.isValid ("545507520001".data ++ ['0', '5']) = false ∧
      Cnpj.isValid ("545507520001".data ++ ['5', '0']) = false) ∧
    (Cnpj.isValid ("A00000000000".data ++ ['4', '2']) = false ∧
      Cnpj.isValid ("A00000000000".data ++ ['3', '3']) = false) := by
  refine ⟨C3_mutation_sensitivity.1 "295379955".data '9' '3' '0' '0'
      (by decide) (by decide) (by decide) (by decide) (by decide) (by decide)
      (by decide) (by decide) (by decide),
    C3_mutation_sensitivity.2.1 "545507520001".data '5' '5' '0' '0'
      (by decide) (by decide) (by decide) (by decide) (by decide) (by decide)
      (by decide) (by decide) (by decide), ?_, ?_⟩
  · exact (C3_mutation_sensitivity.2.2 "A00000000000".data '3' '2' '4' '3'
      (by decide) (by decide) (by decide) (by decide) (by decide) (by decide)
      (by decide) (by decide)).1 (by decide)
  · exact (C3_mutation_sensitivity.2.2 "A00000000000".data '3' '2' '4' '3'
      (by decide) (by decide) (by decide) (by decide) (by decide) (by decide)
      (by decide) (by decide)).2 (by decide)

/-- Claim C8, counterexample: the claim describes parseInt as stopping at the
first non-digit and giving NaN only when the pair starts with a non-digit.
The trailing pair of "0000000000000X" starts with the digit 0, and the
leading digit run of "0X" has the value 0, equal to the 10 d1 + d2 integer of
the computed pair (0, 0) — so under that description the document would be
accepted.  The program's parseInt, however, treats "0X" as a hexadecimal
prefix with no digits after it, yields NaN, and validateAlphanumeric rejects
the document. -/
theorem C8_counterexample :
    CnpjAlfanumeric.validateAlphanumeric "0000000000000X".data = false ∧
    alfaCheckPair "0000000000000X".data = (0, 0) ∧
    ('0').isDigit = true ∧
    jsParseInt "0X".data = none ∧
    digitsToNat ("0X".data.takeWhile Char.isDigit) =
      10 * (alfaCheckPair "0000000000000X".data).1 +
        (alfaCheckPair "0000000000000X".data).2 :=
  ⟨by decide, by decide, by decide, by decide, by decide⟩

/-- Claim C8 (amended): on a cleaned 14-character input, validateAlphanumeric
accepts exactly when parseInt of the input's last two characters equals
parseInt of the concatenation of the two check digits recomputed from the
first 12 characters, where parseInt has its full ECMAScript default-radix
semantics — optional whitespace and sign, a "0x"/"0X" prefix switching to
hexadecimal (so a trailing pair "0x" or "0X" parses to NaN), then the longest
digit run, NaN when that run is empty.  The computed side always parses to
the number 10 d1 + d2, and a NaN on the input side never compares equal, so
the comparison is by parsed integer, not per-character. -/
theorem C8_integer_parse_comparison : ∀ s : List Char, s.length = 14 →
    (CnpjAlfanumeric.validateAlphanumeric s = true ↔
      jsParseInt (s.drop 12) = jsParseInt (Nat.toDigits 10 (alfaCheckPair s).1 ++
        Nat.toDigits 10 (alfaCheckPair s).2)) ∧
    jsParseInt (Nat.toDigits 10 (alfaCheckPair s).1 ++ Nat.toDigits 10 (alfaCheckPair s).2) =
      some ((10 * (alfaCheckPair s).1 + (alfaCheckPair s).2 : Nat) : Int) := by
  intro s h
  have h1 : (alfaCheckPair s).1 < 10 := by
    simp only [alfaCheckPair, CnpjAlfanumeric.calculateCheckDigits]
    exact cnpjA_checkDigit_lt _
  have h2 : (alfaCheckPair s).2 < 10 := by
    simp only [alfaCheckPair, CnpjAlfanumeric.calculateCheckDigits]
    exact cnpjA_checkDigit_lt _
  have hc := jsParseInt_toDigits_pair _ h1 _ h2
  refine ⟨?_, hc⟩
  rw [validateAlphanumeric_iff s h, hc]

/-- Claim C8, witness: the comparison-semantics theorem at the concrete valid
alphanumeric document "12ABC34501DE35". -/
theorem C8_integer_parse_comparison_witness :
    ("12ABC34501DE35".data.length = 14) ∧
    ((CnpjAlfanumeric.validateAlphanumeric "12ABC34501DE35".data = true ↔
      jsParseInt ("12ABC34501DE35".data.drop 12) =
        jsParseInt (Nat.toDigits 10 (alfaCheckPair "12ABC34501DE35".data).1 ++
          Nat.toDigits 10 (alfaCheckPair "12ABC34501DE35".data).2)) ∧
    jsParseInt (Nat.toDigits 10 (alfaCheckPair "12ABC34501DE35".data).1 ++
        Nat.toDigits 10 (alfaCheckPair "12ABC34501DE35".data).2) =
      some ((10 * (alfaCheckPair "12ABC34501DE35".data).1 +
        (alfaCheckPair "12ABC34501DE35".data).2 : Nat) : Int)) :=
  ⟨by decide, C8_integer_parse_comparison _ (by decide)⟩

/-- Claim C9: cnpj.isValid cleans to letters and digits, rejects every input
whose cleaned form is not 14 characters long (so an 11-digit CPF string is
rejected), routes an all-digit cleaned form to the numeric validator and any
other cleaned form to the alphanumeric validator; symmetrically, cpf.isValid
rejects every input whose cleaned form has the CNPJ length 14. -/
theorem C9_dispatcher :
    (∀ s : List Char, (s.filter isAlnumChar).length ≠ 14 → Cnpj.isValid s = false) ∧
    (∀ s : List Char, (s.filter isAlnumChar).length = 14 →
      Cnpj.isValid s =
        if (s.filter isAlnumChar).all Char.isDigit
          then CnpjNumeric.validateNumeric (s.filter isAlnumChar)
          else CnpjAlfanumeric.validateAlphanumeric (s.filter isAlnumChar)) ∧
    (∀ s : List Char, (Cpf.cleanCPF s).length = 14 → Cpf.isValid s = false) := by
  refine ⟨fun s h => ?_, fun s h => ?_, fun s h => ?_⟩
  · have hb : ((s.filter isAlnumChar).length == CNPJ_LENGTH) = false :=
      beq_eq_false_iff_ne.mpr h
    simp [Cnpj.isValid, hb]
  · have hall : ∀ c ∈ s.filter isAlnumChar, isAlnumChar c = true :=
      fun c hc => (List.mem_filter.mp hc).2
    exact (cnpj_isValid_congr s _ (List.filter_eq_self.mpr hall).symm).trans
      (cnpj_isValid_alnum (s.filter isAlnumChar) h hall)
  · have h11 : (Cpf.cleanCPF s).length ≠ 11 := by rw [h]; omega
    have hf : Cpf.isValidFormat (Cpf.cleanCPF s) = false := by
      rw [Cpf.isValidFormat, if_pos (show (Cpf.cleanCPF s).length ≠ CPF_LENGTH from h11)]
    rw [cpf_isValid_eq, hf]
    simp

/-- Claim C9, witness: cross-type rejection and routing at concrete inputs, a
valid CPF fed to cnpj.isValid, the alphanumeric document "12ABC34501DE35" for
the routing equation, and a valid CNPJ fed to cpf.isValid. -/
theorem C9_dispatcher_witness :
    Cnpj.isValid "07208766053".data = false ∧
    (Cnpj.isValid "12ABC34501DE35".data =
      if ("12ABC34501DE35".data.filter isAlnumChar).all Char.isDigit
        then CnpjNumeric.validateNumeric ("12ABC34501DE35".data.filter isAlnumChar)
        else CnpjAlfanumeric.validateAlphanumeric
          ("12ABC34501DE35".data.filter isAlnumChar)) ∧
    Cpf.isValid "54550752000155".data = false :=
  ⟨C9_dispatcher.1 _ (by decide), C9_dispatcher.2.1 _ (by decide),
    C9_dispatcher.2.2 _ (by decide)⟩

/-- Claim C10: the dispatcher's cleaning keeps lowercase letters (which are
not digits, so such inputs are routed to the alphanumeric validator), the
letter table gives every lowercase letter the value 0, and consequently
cnpj.isValid is case-sensitive: the valid alphanumeric document
"A0000000000032" becomes invalid when its letter is lowercased. -/
theorem C10_case_sensitivity :
    (∀ c : Char, 97 ≤ c.toNat → c.toNat ≤ 122 →
      isAlnumChar c = true ∧ c.isDigit = false ∧
        CnpjAlfanumeric.convertLetterToNumber c = 0) ∧
    Cnpj.isValid "A0000000000032".data = true ∧
    Cnpj.isValid "a0000000000032".data = false := by
  refine ⟨fun c h1 h2 => ⟨?_, ?_, ?_⟩, by decide, by decide⟩
  · rw [isAlnumChar_iff]
    exact Or.inl ⟨h1, h2⟩
  · rw [Bool.eq_false_iff]
    intro hd
    have := (isDigit_iff c).mp hd
    omega
  · exact convertLetterToNumber_other c (by omega)

/-- Claim C10, witness: the case-sensitivity theorem's lowercase clause at the
letter 'a'. -/
theorem C10_case_sensitivity_witness :
    isAlnumChar 'a' = true ∧ ('a').isDigit = false ∧
      CnpjAlfanumeric.convertLetterToNumber 'a' = 0 :=
  C10_case_sensitivity.1 'a' (by decide) (by decide)
